import Mathlib

/-!
Verification of the kubera-reporting snapshot/comparison/retention/aggregation/
allocation core against its natural-language specification.

The definitions below are a shallow embedding of the Python sources:
  * kubera_reporting/allocation.py   (calculate_asset_allocation)
  * kubera_reporting/reporter.py     (PortfolioReporter._aggregate_holdings_to_accounts,
                                      PortfolioReporter.calculate_deltas,
                                      PortfolioReporter.calculate_asset_allocation — an
                                      identical copy of the allocation.py function)
  * kubera_reporting/storage.py      (SnapshotStorage.save_snapshot, load_snapshot,
                                      is_milestone_date, get_comparison_snapshot,
                                      cleanup_old_snapshots)

Python float amounts are embedded as exact rationals (ℚ); Python strings as Lean
strings with explicit ASCII lowercasing and substring scans mirroring `str.lower`
and the `in` operator; Python `datetime` calendar arithmetic as proleptic
Gregorian day-number conversion (the standard civil-from-days / days-from-civil
algorithms, which is what `datetime ± timedelta` computes).
-/

namespace Kubera

attribute [local semireducible] Rat.add Rat.mul Rat.inv Rat.sub

/-- ASCII lowercasing of one character, as Python `str.lower` acts on ASCII. -/
def lowerChar (c : Char) : Char :=
  if 65 ≤ c.toNat ∧ c.toNat ≤ 90 then Char.ofNat (c.toNat + 32) else c

/-- Lowercase a string (ASCII), embedding Python `s.lower()`. -/
def lowerStr (s : String) : String := ⟨s.data.map lowerChar⟩

/-- Does the list `hay` contain `needle` as a contiguous sublist?  Embeds the
Python substring test `needle in hay`. -/
def hasSubList (needle : List Char) : List Char → Bool
  | [] => needle.isEmpty
  | c :: t => needle.isPrefixOf (c :: t) || hasSubList needle t

/-- Python `needle in hay` on strings. -/
def strContains (hay needle : String) : Bool := hasSubList needle.data hay.data

/-- Python `f"{pid}_"` prefix test `s.startswith(pid + "_")`. -/
def startsWithChild (pid s : String) : Bool :=
  (pid.data ++ ['_']).isPrefixOf s.data

/-- A monetary value: `{amount, currency}` (types.py MoneyValue);
float amounts embedded as exact rationals. -/
structure MoneyValue where
  amount : ℚ
  currency : String
deriving DecidableEq

/-- One account or holding line (types.py AccountSnapshot). -/
structure AccountRecord where
  id : String
  name : String
  institution : Option String
  value : MoneyValue
  category : String
  sheet_name : String
  section_name : Option String
  sub_type : Option String
  asset_class : Option String
  account_type : Option String
  geography : Option String
deriving DecidableEq

/-- A portfolio snapshot (types.py PortfolioSnapshot). -/
structure PortfolioSnapshot where
  timestamp : String
  portfolio_id : String
  portfolio_name : String
  currency : String
  net_worth : MoneyValue
  total_assets : MoneyValue
  total_debts : MoneyValue
  accounts : List AccountRecord
deriving DecidableEq

/-- Per-account comparison result (types.py AccountDelta). -/
structure AccountDelta where
  id : String
  name : String
  institution : Option String
  category : String
  sheet_name : String
  section_name : Option String
  sub_type : Option String
  asset_class : Option String
  account_type : Option String
  geography : Option String
  current_value : MoneyValue
  previous_value : MoneyValue
  change : MoneyValue
  change_percent : Option ℚ
deriving DecidableEq

/-- Result of delta computation (types.py ReportData). -/
structure ReportData where
  current : PortfolioSnapshot
  current_unaggregated : PortfolioSnapshot
  previous : Option PortfolioSnapshot
  net_worth_change : Option MoneyValue
  net_worth_change_percent : Option ℚ
  asset_changes : List AccountDelta
  debt_changes : List AccountDelta
deriving DecidableEq

/-- Python `x.lower() if x else ""` applied to an optional string field
(allocation.py lines 69-74): `None` and `""` both normalize to `""`. -/
def normOpt (o : Option String) : String := lowerStr (o.getD "")

/-- The fixed `subtype_to_category` dictionary of allocation.py (lines 28-39),
embedded as a lookup function. -/
def subtype_to_category (s : String) : Option String :=
  if s = "stock" then some "Stocks"
  else if s = "etf" then some "Stocks"
  else if s = "bond" then some "Bonds"
  else if s = "cash" then some "Cash"
  else if s = "crypto" then some "Crypto"
  else if s = "cryptocurrency" then some "Crypto"
  else if s = "real estate" then some "Real Estate"
  else if s = "property" then some "Real Estate"
  else if s = "primary residence" then some "Real Estate"
  else if s = "investment property" then some "Real Estate"
  else none

/-- Bond-indicating name keywords (allocation.py lines 86-103). -/
def bond_keywords : List String :=
  ["bond", "fixed income", "yield", "yld", "floating rate", "floating-rate",
   "high income", "high-income", "high-inc", "income fund", "income builder",
   "mortgage", "treasury", "municipal", "corporate debt", "balanced income"]

/-- Investment fallback keywords (allocation.py lines 139-146). -/
def investment_keywords : List String :=
  ["investment", "brokerage", "ira", "401k", "stock", "equity"]

/-- The tiered classification cascade applied to a single account
(allocation.py lines 68-152): the body of the loop after the skip checks.
`c1` is the sub_type lookup, `c2` the mutual-fund/fund name-keyword tier,
`c3`-`c6` the successive "if category is None" fallbacks, defaulting to
"Other". -/
def classify_account (a : AccountRecord) : String :=
  let sub_type := normOpt a.sub_type
  let asset_class := normOpt a.asset_class
  let account_type := normOpt a.account_type
  let sheet := lowerStr a.sheet_name
  let name := lowerStr a.name
  let c1 : Option String := subtype_to_category sub_type
  let c2 : Option String :=
    if sub_type = "mutual fund" ∨ asset_class = "fund" then
      if bond_keywords.any (fun kw => strContains name kw) then some "Bonds"
      else some "Stocks"
    else c1
  let c3 : Option String :=
    match c2 with
    | some c => some c
    | none => subtype_to_category asset_class
  let c4 : Option String :=
    match c3 with
    | some c => some c
    | none =>
      if asset_class = "stock" then some "Stocks"
      else if asset_class = "crypto" then some "Crypto"
      else none
  let c5 : Option String :=
    match c4 with
    | some c => some c
    | none =>
      if strContains sheet "crypto" then some "Crypto"
      else if strContains sheet "real estate" ∨ account_type = "property" then
        some "Real Estate"
      else none
  let c6 : Option String :=
    match c5 with
    | some c => some c
    | none =>
      if strContains name "crypto" then some "Crypto"
      else if strContains name "bond" then some "Bonds"
      else if strContains sheet "real estate" ∨ strContains sheet "property" then
        some "Real Estate"
      else if strContains sheet "bank" ∨ strContains name "cash" ∨
              strContains name "checking" ∨ strContains name "savings" then
        some "Cash"
      else if investment_keywords.any
                (fun kw => strContains sheet kw || strContains name kw) then
        some "Stocks"
      else none
  c6.getD "Other"

/-- Does the account with (separator-free) id `pid` have a child holding among
`accs`?  Embeds allocation.py lines 52-56: any asset record whose id starts
with `pid ++ "_"`. -/
def has_children (accs : List AccountRecord) (pid : String) : Bool :=
  accs.any (fun b => b.category == "asset" && startsWithChild pid b.id)

/-- The skip logic of the allocation loop (allocation.py lines 41-66): an
account is counted iff it is an asset, is not a parent with children
(parents are ids without the `_` separator), and has nonzero amount. -/
def counted_pred (accs : List AccountRecord) (a : AccountRecord) : Bool :=
  a.category == "asset" &&
  !(!(a.id.data.contains '_') && has_children accs a.id) &&
  !(decide (a.value.amount = 0))

/-- The accounts actually accumulated by the allocation loop. -/
def counted_accounts (accs : List AccountRecord) : List AccountRecord :=
  accs.filter (counted_pred accs)

/-- The fixed category keys, in the insertion order of the Python dict
(allocation.py lines 18-25). -/
def category_keys : List String :=
  ["Stocks", "Bonds", "Crypto", "Real Estate", "Cash", "Other"]

/-- The accumulated amount for category `k`: `categories[k]` after the loop. -/
def category_total (s : PortfolioSnapshot) (k : String) : ℚ :=
  (((counted_accounts s.accounts).filter
      (fun a => classify_account a == k)).map (fun a => a.value.amount)).sum

/-- `sum(categories.values())` (allocation.py line 157). -/
def allocation_total (s : PortfolioSnapshot) : ℚ :=
  (category_keys.map (category_total s)).sum

/-- calculate_asset_allocation (allocation.py lines 6-160; identical copy at
reporter.py lines 243-397).  Returns the category → percentage map as an
association list in dict iteration order. -/
def calculate_asset_allocation (s : PortfolioSnapshot) : List (String × ℚ) :=
  if 0 < allocation_total s then
    ((category_keys.map (fun k => (k, category_total s k))).filter
        (fun p => decide (0 < p.2))).map
      (fun p => (p.1, p.2 / allocation_total s * 100))
  else []

/-- A calendar date, the date component of a Python `datetime`. -/
structure Date where
  year : Int
  month : Int
  day : Int
deriving DecidableEq

/-- Report cadences (types.py ReportType). -/
inductive ReportType where
  | DAILY | WEEKLY | MONTHLY | QUARTERLY | YEARLY
deriving DecidableEq

/-- Day number of a proleptic Gregorian date, relative to 1970-01-01
(the standard days-from-civil algorithm; this is the arithmetic behind
Python `datetime` subtraction). -/
def daysFromCivil (dt : Date) : Int :=
  let y : Int := if dt.month ≤ 2 then dt.year - 1 else dt.year
  let era : Int := y.fdiv 400
  let yoe : Int := y - era * 400
  let mp : Int := (dt.month + 9).emod 12
  let doy : Int := (153 * mp + 2).fdiv 5 + dt.day - 1
  let doe : Int := yoe * 365 + yoe.fdiv 4 - yoe.fdiv 100 + doy
  era * 146097 + doe - 719468

/-- Date of a day number relative to 1970-01-01 (civil-from-days). -/
def civilFromDays (z0 : Int) : Date :=
  let z := z0 + 719468
  let era := z.fdiv 146097
  let doe := z - era * 146097
  let yoe := (doe - doe.fdiv 1460 + doe.fdiv 36524 - doe.fdiv 146096).fdiv 365
  let y := yoe + era * 400
  let doy := doe - (365 * yoe + yoe.fdiv 4 - yoe.fdiv 100)
  let mp := (5 * doy + 2).fdiv 153
  let d := doy - (153 * mp + 2).fdiv 5 + 1
  let m := if mp < 10 then mp + 3 else mp - 9
  ⟨if m ≤ 2 then y + 1 else y, m, d⟩

/-- Python `date - timedelta(days=n)`. -/
def subDays (d : Date) (n : Int) : Date := civilFromDays (daysFromCivil d - n)

/-- Python `date.weekday()`: Monday = 0 … Sunday = 6
(1970-01-01 was a Thursday, weekday 3). -/
def pyWeekday (d : Date) : Int := (daysFromCivil d + 3).emod 7

/-- Python `datetime` comparison `a <= b` restricted to midnight datetimes:
lexicographic on (year, month, day). -/
def dateLe (a b : Date) : Bool :=
  decide (a.year < b.year ∨ (a.year = b.year ∧
    (a.month < b.month ∨ (a.month = b.month ∧ a.day ≤ b.day))))

/-- Strict `datetime` comparison `a < b` on midnight datetimes. -/
def dateLt (a b : Date) : Bool :=
  decide (a.year < b.year ∨ (a.year = b.year ∧
    (a.month < b.month ∨ (a.month = b.month ∧ a.day < b.day))))

/-- SnapshotStorage.is_milestone_date (storage.py lines 161-187), with the
source's redundant quarter/year branches kept. -/
def is_milestone_date (d : Date) : Bool :=
  if pyWeekday d = 0 then true
  else if d.day = 1 then true
  else if (d.month = 1 ∨ d.month = 4 ∨ d.month = 7 ∨ d.month = 10) ∧ d.day = 1 then true
  else if d.month = 1 ∧ d.day = 1 then true
  else false

/-- SnapshotStorage.get_milestone_types (storage.py lines 189-217). -/
def get_milestone_types (d : Date) : List ReportType :=
  let base := [ReportType.DAILY]
  let base := if pyWeekday d = 0 then base ++ [ReportType.WEEKLY] else base
  if d.day = 1 then
    let base := base ++ [ReportType.MONTHLY]
    let base :=
      if d.month = 1 ∨ d.month = 4 ∨ d.month = 7 ∨ d.month = 10 then
        base ++ [ReportType.QUARTERLY]
      else base
    if d.month = 1 then base ++ [ReportType.YEARLY] else base
  else base

/-- The quarter-start months dictionary values (storage.py line 261). -/
def quarter_starts : List Int := [1, 4, 7, 10]

/-- The comparison-date logic of SnapshotStorage.get_comparison_snapshot
(storage.py lines 219-288): the calendar date whose snapshot is loaded as
the baseline; the Python `max` over a filtered list is embedded as a fold
(the filter is never empty for months ≥ 1). -/
def get_comparison_date (d : Date) (rt : ReportType) : Date :=
  match rt with
  | ReportType.DAILY => subDays d 1
  | ReportType.WEEKLY => subDays d 7
  | ReportType.MONTHLY =>
    if d.month = 1 then ⟨d.year - 1, 12, 1⟩
    else ⟨d.year, d.month - 1, 1⟩
  | ReportType.QUARTERLY =>
    let cur_q := (quarter_starts.filter (fun m => decide (m ≤ d.month))).foldl max 0
    if cur_q = 1 then ⟨d.year - 1, 10, 1⟩
    else
      let prev_q := (quarter_starts.filter (fun m => decide (m < cur_q))).foldl max 0
      ⟨d.year, prev_q, 1⟩
  | ReportType.YEARLY => ⟨d.year - 1, 1, 1⟩

/-- The Comparison Resolver as the spec states it (spec §4.3 and claim C2):
DAILY/WEEKLY subtract days; MONTHLY is the first day of the previous
calendar month; QUARTERLY the first day of the previous quarter-start
month, computed from the current quarter start `3 * ((month - 1) / 3) + 1`;
YEARLY January 1 of the previous year. -/
def comparison_date_from_spec (d : Date) (rt : ReportType) : Date :=
  match rt with
  | ReportType.DAILY => subDays d 1
  | ReportType.WEEKLY => subDays d 7
  | ReportType.MONTHLY =>
    if d.month = 1 then ⟨d.year - 1, 12, 1⟩
    else ⟨d.year, d.month - 1, 1⟩
  | ReportType.QUARTERLY =>
    let qs := 3 * ((d.month - 1).fdiv 3) + 1
    if qs = 1 then ⟨d.year - 1, 10, 1⟩
    else ⟨d.year, qs - 3, 1⟩
  | ReportType.YEARLY => ⟨d.year - 1, 1, 1⟩

/-- The deletion decision of SnapshotStorage.cleanup_old_snapshots
(storage.py lines 290-337): the stored dates that are deleted, i.e. those
not kept by the today/yesterday check, the retention-window check
`snapshot_date >= retention_cutoff`, or the milestone check. -/
def cleanup_deleted (snapshots : List Date) (today : Date)
    (retention_days : Int) : List Date :=
  let yesterday := subDays today 1
  let retention_cutoff := subDays today retention_days
  snapshots.filter (fun sd =>
    !(sd == today || sd == yesterday) &&
    !(dateLe retention_cutoff sd) &&
    !(is_milestone_date sd))

/-- SnapshotStorage.load_snapshot (storage.py lines 80-105), with the store
directory as a map from date to raw file content and JSON parsing as a
parameter (an external library): absent file → `ok none`; present file
whose parse fails → `error`; otherwise `ok (some snapshot)`. -/
def load_snapshot (parse : String → Option PortfolioSnapshot)
    (store : Date → Option String) (d : Date) :
    Except String (Option PortfolioSnapshot) :=
  match store d with
  | none => Except.ok none
  | some raw =>
    match parse raw with
    | some snap => Except.ok (some snap)
    | none => Except.error "Invalid JSON in snapshot file"

/-- The sequence of observable file contents for the snapshot's path during
SnapshotStorage.save_snapshot (storage.py lines 66-75): before the call the
file holds `old` (or is absent); `os.open(path, O_WRONLY|O_CREAT|O_TRUNC)`
creates/truncates it to empty; `json.dump` then fills in the new serialized
content. -/
def save_states (old : Option String) (new : String) : List (Option String) :=
  [old, some "", some new]

/-- The filtering loop of PortfolioReporter._aggregate_holdings_to_accounts
(reporter.py lines 44-59): keep an account iff it is not a holding (no `_`
in its id) and does not have zero value, appending in iteration order. -/
def aggregate_accounts_loop (accs : List AccountRecord) : List AccountRecord :=
  accs.foldl
    (fun filtered a =>
      let is_holding := a.id.data.contains '_'
      let has_zero_value := decide (a.value.amount = 0)
      if !is_holding && !has_zero_value then filtered ++ [a] else filtered)
    []

/-- PortfolioReporter._aggregate_holdings_to_accounts (reporter.py lines
28-65): a new snapshot with the filtered accounts and all other fields
carried over (`{**snapshot, "accounts": filtered_accounts}`). -/
def aggregate_holdings_to_accounts (s : PortfolioSnapshot) : PortfolioSnapshot :=
  { s with accounts := aggregate_accounts_loop s.accounts }

/-- The previous-account lookup of calculate_deltas (reporter.py lines
100-104, 111): building a dict keyed by id (later duplicates overwrite
earlier ones) and then `get`. -/
def lookupPrev (accs : List AccountRecord) (i : String) : Option AccountRecord :=
  accs.foldl (fun found a => if a.id = i then some a else found) none

/-- The per-account delta of calculate_deltas (reporter.py lines 110-152):
matched accounts get `change = current − previous` in the current
snapshot's currency and a percent against `abs(previous)` unless the
previous amount is zero; unmatched accounts are new, with a zero previous
value in the current snapshot's currency, `change = current value`, and no
percent. -/
def mkDelta (currency : String) (prevAccs : List AccountRecord)
    (a : AccountRecord) : AccountDelta :=
  match lookupPrev prevAccs a.id with
  | some prev_account =>
    let change_amount := a.value.amount - prev_account.value.amount
    { id := a.id, name := a.name, institution := a.institution,
      category := a.category, sheet_name := a.sheet_name,
      section_name := a.section_name, sub_type := a.sub_type,
      asset_class := a.asset_class, account_type := a.account_type,
      geography := a.geography,
      current_value := a.value,
      previous_value := prev_account.value,
      change := { amount := change_amount, currency := currency },
      change_percent :=
        if prev_account.value.amount ≠ 0 then
          some (change_amount / |prev_account.value.amount| * 100)
        else none }
  | none =>
    { id := a.id, name := a.name, institution := a.institution,
      category := a.category, sheet_name := a.sheet_name,
      section_name := a.section_name, sub_type := a.sub_type,
      asset_class := a.asset_class, account_type := a.account_type,
      geography := a.geography,
      current_value := a.value,
      previous_value := { amount := 0, currency := currency },
      change := a.value,
      change_percent := none }

/-- Stable descending insertion by `abs(change.amount)`: `d` goes after
every earlier element with a key at least as large. -/
def insertDesc (d : AccountDelta) : List AccountDelta → List AccountDelta
  | [] => [d]
  | x :: xs =>
    if |d.change.amount| ≤ |x.change.amount| then x :: insertDesc d xs
    else d :: x :: xs

/-- Python `list.sort(key=lambda x: abs(x.change.amount), reverse=True)`
(reporter.py lines 160-161): the unique stable descending reordering. -/
def sortDesc : List AccountDelta → List AccountDelta
  | [] => []
  | d :: rest => insertDesc d (sortDesc rest)

/-- PortfolioReporter.calculate_deltas (reporter.py lines 67-171). -/
def calculate_deltas (current : PortfolioSnapshot)
    (previous : Option PortfolioSnapshot) : ReportData :=
  let current_original := current
  let cur := aggregate_holdings_to_accounts current
  let prev := previous.map aggregate_holdings_to_accounts
  let net_worth_change : Option MoneyValue :=
    prev.map (fun p =>
      { amount := cur.net_worth.amount - p.net_worth.amount,
        currency := cur.currency })
  let net_worth_change_percent : Option ℚ :=
    match prev with
    | some p =>
      if p.net_worth.amount ≠ 0 then
        some ((cur.net_worth.amount - p.net_worth.amount)
              / |p.net_worth.amount| * 100)
      else none
    | none => none
  let prev_accounts : List AccountRecord :=
    match prev with
    | some p => p.accounts
    | none => []
  let deltas := cur.accounts.map (mkDelta cur.currency prev_accounts)
  let asset_changes := deltas.filter (fun d => d.category == "asset")
  let debt_changes := deltas.filter (fun d => !(d.category == "asset"))
  { current := cur,
    current_unaggregated := current_original,
    previous := prev,
    net_worth_change := net_worth_change,
    net_worth_change_percent := net_worth_change_percent,
    asset_changes := sortDesc asset_changes,
    debt_changes := sortDesc debt_changes }

/-! Helper lemmas. -/

/-- A fold that conditionally appends is a filter. -/
theorem foldl_append_filter {α : Type} (p : α → Bool) :
    ∀ (l acc : List α),
      l.foldl (fun r a => if p a then r ++ [a] else r) acc = acc ++ l.filter p := by
  intro l
  induction l with
  | nil => intro acc; simp
  | cons a t ih =>
    intro acc
    cases hp : p a <;> simp [List.foldl, List.filter_cons, hp, ih]

/-- Membership in the stable descending insertion. -/
theorem mem_insertDesc (x d : AccountDelta) :
    ∀ (l : List AccountDelta), x ∈ insertDesc d l ↔ x = d ∨ x ∈ l := by
  intro l
  induction l with
  | nil => simp [insertDesc]
  | cons a t ih =>
    unfold insertDesc
    by_cases h : |d.change.amount| ≤ |a.change.amount|
    · simp only [if_pos h, List.mem_cons, ih]
      tauto
    · simp only [if_neg h, List.mem_cons]

/-- Membership in the stable descending sort. -/
theorem mem_sortDesc (x : AccountDelta) :
    ∀ (l : List AccountDelta), x ∈ sortDesc l ↔ x ∈ l := by
  intro l
  induction l with
  | nil => simp [sortDesc]
  | cons a t ih => simp [sortDesc, mem_insertDesc, ih]

/-- The dict-based lookup finds nothing iff no account has the id. -/
theorem lookupPrev_eq_none_iff (l : List AccountRecord) (i : String) :
    lookupPrev l i = none ↔ ∀ p ∈ l, p.id ≠ i := by
  have aux : ∀ (t : List AccountRecord) (acc : Option AccountRecord),
      t.foldl (fun found a => if a.id = i then some a else found) acc = none ↔
        acc = none ∧ ∀ p ∈ t, p.id ≠ i := by
    intro t
    induction t with
    | nil => intro acc; simp
    | cons a rest ih =>
      intro acc
      rw [List.foldl_cons]
      by_cases h : a.id = i
      · rw [if_pos h, ih]
        constructor
        · rintro ⟨hc, _⟩; cases hc
        · rintro ⟨_, hall⟩; exact absurd h (hall a (List.mem_cons_self a rest))
      · rw [if_neg h, ih]
        constructor
        · rintro ⟨hacc, hall⟩
          refine ⟨hacc, ?_⟩
          intro p hp
          rcases List.mem_cons.mp hp with rfl | hp
          · exact h
          · exact hall p hp
        · rintro ⟨hacc, hall⟩
          exact ⟨hacc, fun p hp => hall p (List.mem_cons_of_mem _ hp)⟩
  rw [lookupPrev, aux l none]
  simp

/-- Summing `v / t * 100` over the positive entries equals the full sum
divided by `t` times 100, provided every entry is nonnegative. -/
theorem sum_filter_pos_div (t : ℚ) (ht : t ≠ 0) :
    ∀ (l : List (String × ℚ)), (∀ p ∈ l, 0 ≤ p.2) →
      ((l.filter (fun p => decide (0 < p.2))).map
          (fun p => p.2 / t * 100)).sum
        = (l.map (fun p => p.2)).sum / t * 100 := by
  intro l
  induction l with
  | nil => intro _; simp
  | cons a rest ih =>
    intro hnn
    have hrest := ih (fun p hp => hnn p (List.mem_cons_of_mem _ hp))
    by_cases h : 0 < a.2
    · rw [List.filter_cons, if_pos (by simpa using h), List.map_cons, List.sum_cons,
        hrest, List.map_cons, List.sum_cons]
      field_simp
      ring
    · have h0 : a.2 = 0 := le_antisymm (not_lt.mp h) (hnn a (List.mem_cons_self a rest))
      rw [List.filter_cons, if_neg (by simpa using h), hrest, List.map_cons,
        List.sum_cons, h0, zero_add]

/-- Strict datetime order is the negation of the reverse weak order. -/
theorem dateLt_eq_not_dateLe (a b : Date) : dateLt a b = !dateLe b a := by
  unfold dateLt dateLe
  by_cases h : a.year < b.year ∨ (a.year = b.year ∧
      (a.month < b.month ∨ (a.month = b.month ∧ a.day < b.day)))
  · have h2 : ¬(b.year < a.year ∨ (b.year = a.year ∧
        (b.month < a.month ∨ (b.month = a.month ∧ b.day ≤ a.day)))) := by omega
    rw [decide_eq_true h, decide_eq_false h2]
    rfl
  · have h2 : b.year < a.year ∨ (b.year = a.year ∧
        (b.month < a.month ∨ (b.month = a.month ∧ b.day ≤ a.day))) := by omega
    rw [decide_eq_false h, decide_eq_true h2]
    rfl

/-! Claim C1. -/

/-- An asset account with normalized sub_type "etf", asset_class "Fund", and a
bond-keyword name: the fund tier overrides the tier-1 etf match. -/
def etf_bond_fund_account : AccountRecord :=
  { id := "acct1", name := "Total Bond Market ETF", institution := none,
    value := { amount := 100, currency := "USD" }, category := "asset",
    sheet_name := "Investments", section_name := none,
    sub_type := some "ETF", asset_class := some "Fund",
    account_type := none, geography := none }

/-- C1 counterexample: an asset account whose normalized sub_type is "etf" but
whose asset_class is "Fund" and whose name contains "bond" is classified as
Bonds, not Stocks — tier 2 overrides tier 1's etf match, contradicting the
claim that sub_type "etf" yields Stocks regardless of name and asset_class. -/
theorem C1_counterexample :
    normOpt etf_bond_fund_account.sub_type = "etf" ∧
    etf_bond_fund_account.category = "asset" ∧
    classify_account etf_bond_fund_account ≠ "Stocks" ∧
    classify_account etf_bond_fund_account = "Bonds" := by decide

/-- C1 (amended): for every account whose normalized sub_type is "etf" and
whose normalized asset_class is not "fund", the classifier assigns Stocks
regardless of the account's name: tier 1 matches and no later tier
overrides it. -/
theorem C1_etf_classifies_stocks (a : AccountRecord)
    (h1 : normOpt a.sub_type = "etf")
    (h2 : normOpt a.asset_class ≠ "fund") :
    classify_account a = "Stocks" := by
  have hc : ¬(("etf" : String) = "mutual fund" ∨ normOpt a.asset_class = "fund") := by
    push_neg
    exact ⟨by decide, h2⟩
  simp only [classify_account, h1, if_neg hc]
  rfl

/-- An etf account with a bond-like name but no asset_class. -/
def etf_plain_account : AccountRecord :=
  { id := "acct2", name := "Total Bond Market ETF", institution := none,
    value := { amount := 100, currency := "USD" }, category := "asset",
    sheet_name := "Investments", section_name := none,
    sub_type := some "ETF", asset_class := none,
    account_type := none, geography := none }

/-- C1 witness: the amended theorem applied to a concrete etf account whose
name contains "bond" but whose asset_class is absent. -/
theorem C1_witness :
    normOpt etf_plain_account.sub_type = "etf" ∧
    normOpt etf_plain_account.asset_class ≠ "fund" ∧
    classify_account etf_plain_account = "Stocks" :=
  ⟨by decide, by decide, C1_etf_classifies_stocks etf_plain_account (by decide) (by decide)⟩

/-! Claim C2. -/

/-- C2: for every date with a valid month, the comparison-date logic of
get_comparison_snapshot computes exactly the dates the spec states: DAILY
date − 1 day, WEEKLY date − 7 days, MONTHLY the first day of the previous
calendar month (December 1 of the previous year in January), QUARTERLY the
first day of the previous quarter-start month among {1,4,7,10} (October 1
of the previous year when the current quarter starts in January), YEARLY
January 1 of the previous year. -/
theorem C2_comparison_resolver (d : Date) (rt : ReportType)
    (h1 : 1 ≤ d.month) (h2 : d.month ≤ 12) :
    get_comparison_date d rt = comparison_date_from_spec d rt := by
  obtain ⟨y, m, dy⟩ := d
  have h1' : 1 ≤ m := h1
  have h2' : m ≤ 12 := h2
  cases rt with
  | DAILY => rfl
  | WEEKLY => rfl
  | MONTHLY => rfl
  | YEARLY => rfl
  | QUARTERLY => interval_cases m <;> rfl

/-- C2 witness: the theorem applied at 2025-01-01 for QUARTERLY, together
with the concrete year-boundary value October 1, 2024. -/
theorem C2_witness :
    get_comparison_date ⟨2025, 1, 1⟩ ReportType.QUARTERLY
      = comparison_date_from_spec ⟨2025, 1, 1⟩ ReportType.QUARTERLY ∧
    get_comparison_date ⟨2025, 1, 1⟩ ReportType.QUARTERLY = ⟨2024, 10, 1⟩ :=
  ⟨C2_comparison_resolver ⟨2025, 1, 1⟩ ReportType.QUARTERLY (by decide) (by decide),
   by decide⟩

/-! Claim C3. -/

/-- C3: a stored date is deleted by cleanup_old_snapshots iff it is not
today, not today − 1 day, strictly before today − retentionDays, and not a
milestone date (and this holds for every retentionDays, including 0). -/
theorem C3_retention_deletes_iff (snapshots : List Date) (today : Date)
    (retention_days : Int) (d : Date) :
    d ∈ cleanup_deleted snapshots today retention_days ↔
      d ∈ snapshots ∧ d ≠ today ∧ d ≠ subDays today 1 ∧
      dateLt d (subDays today retention_days) = true ∧
      is_milestone_date d = false := by
  unfold cleanup_deleted
  rw [List.mem_filter]
  simp only [Bool.and_eq_true, Bool.not_eq_true', Bool.or_eq_false_iff,
    beq_eq_false_iff_ne, dateLt_eq_not_dateLe, Bool.not_eq_true']
  tauto

/-! Claim C4. -/

/-- C4: for aggregated current and previous snapshots and every account of
current, the delta built by the engine satisfies: with a matching previous
account (the one the dict lookup finds), change = current − previous in the
current snapshot's currency, change_percent = change/|previous|·100 and is
null exactly when the previous amount is zero; with no matching previous
account, previous_value is a zero MoneyValue in current's currency, change
equals current_value, and change_percent is null.  The final conjunct ties
the lookup's `none` result to the nonexistence of a matching id. -/
theorem C4_delta_per_account (cur prevS : PortfolioSnapshot) (a : AccountRecord)
    (_hmem : a ∈ (aggregate_holdings_to_accounts cur).accounts) :
    (∀ p, lookupPrev (aggregate_holdings_to_accounts prevS).accounts a.id = some p →
      (mkDelta (aggregate_holdings_to_accounts cur).currency
          (aggregate_holdings_to_accounts prevS).accounts a).current_value = a.value ∧
      (mkDelta (aggregate_holdings_to_accounts cur).currency
          (aggregate_holdings_to_accounts prevS).accounts a).previous_value = p.value ∧
      (mkDelta (aggregate_holdings_to_accounts cur).currency
          (aggregate_holdings_to_accounts prevS).accounts a).change
        = { amount := a.value.amount - p.value.amount, currency := cur.currency } ∧
      ((mkDelta (aggregate_holdings_to_accounts cur).currency
          (aggregate_holdings_to_accounts prevS).accounts a).change_percent = none
        ↔ p.value.amount = 0) ∧
      (p.value.amount ≠ 0 →
        (mkDelta (aggregate_holdings_to_accounts cur).currency
            (aggregate_holdings_to_accounts prevS).accounts a).change_percent
          = some ((a.value.amount - p.value.amount) / |p.value.amount| * 100))) ∧
    ((∀ p ∈ (aggregate_holdings_to_accounts prevS).accounts, p.id ≠ a.id) →
      (mkDelta (aggregate_holdings_to_accounts cur).currency
          (aggregate_holdings_to_accounts prevS).accounts a).previous_value
        = { amount := 0, currency := cur.currency } ∧
      (mkDelta (aggregate_holdings_to_accounts cur).currency
          (aggregate_holdings_to_accounts prevS).accounts a).change = a.value ∧
      (mkDelta (aggregate_holdings_to_accounts cur).currency
          (aggregate_holdings_to_accounts prevS).accounts a).change_percent = none) := by
  constructor
  · intro p hp
    unfold mkDelta
    rw [hp]
    refine ⟨rfl, rfl, rfl, ?_, ?_⟩
    · show (if p.value.amount ≠ 0 then
          some ((a.value.amount - p.value.amount) / |p.value.amount| * 100)
        else none) = none ↔ p.value.amount = 0
      by_cases hz : p.value.amount = 0
      · rw [if_neg (not_not_intro hz)]
        simp [hz]
      · rw [if_pos hz]
        simp [hz]
    · intro hz
      show (if p.value.amount ≠ 0 then
          some ((a.value.amount - p.value.amount) / |p.value.amount| * 100)
        else none) = some ((a.value.amount - p.value.amount) / |p.value.amount| * 100)
      rw [if_pos hz]
  · intro hnone
    have hl : lookupPrev (aggregate_holdings_to_accounts prevS).accounts a.id = none :=
      (lookupPrev_eq_none_iff _ _).mpr hnone
    unfold mkDelta
    rw [hl]
    exact ⟨rfl, rfl, rfl⟩

/-- Concrete current account for the C4 witness. -/
def c4_acc_cur : AccountRecord :=
  { id := "x", name := "X", institution := none,
    value := { amount := 5, currency := "USD" }, category := "asset",
    sheet_name := "Investments", section_name := none, sub_type := none,
    asset_class := none, account_type := none, geography := none }

/-- Concrete previous account for the C4 witness: same id "x", amount 4. -/
def c4_acc_prev : AccountRecord :=
  { id := "x", name := "X", institution := none,
    value := { amount := 4, currency := "USD" }, category := "asset",
    sheet_name := "Investments", section_name := none, sub_type := none,
    asset_class := none, account_type := none, geography := none }

/-- Concrete current snapshot for the C4 witness. -/
def c4_cur : PortfolioSnapshot :=
  { timestamp := "2025-06-02T08:00:00", portfolio_id := "p", portfolio_name := "P",
    currency := "USD", net_worth := { amount := 5, currency := "USD" },
    total_assets := { amount := 5, currency := "USD" },
    total_debts := { amount := 0, currency := "USD" },
    accounts := [c4_acc_cur] }

/-- Concrete previous snapshot for the C4 witness. -/
def c4_prev : PortfolioSnapshot :=
  { timestamp := "2025-06-01T08:00:00", portfolio_id := "p", portfolio_name := "P",
    currency := "USD", net_worth := { amount := 4, currency := "USD" },
    total_assets := { amount := 4, currency := "USD" },
    total_debts := { amount := 0, currency := "USD" },
    accounts := [c4_acc_prev] }

/-- C4 witness: the theorem applied to concrete snapshots, yielding
change = 1 USD and change_percent = 25 for the matched account. -/
theorem C4_witness :
    (mkDelta (aggregate_holdings_to_accounts c4_cur).currency
        (aggregate_holdings_to_accounts c4_prev).accounts c4_acc_cur).change
      = { amount := 1, currency := "USD" } ∧
    (mkDelta (aggregate_holdings_to_accounts c4_cur).currency
        (aggregate_holdings_to_accounts c4_prev).accounts c4_acc_cur).change_percent
      = some 25 := by
  have h := C4_delta_per_account c4_cur c4_prev c4_acc_cur (by decide)
  obtain ⟨hsome, -⟩ := h
  have hp := hsome c4_acc_prev (by decide)
  refine ⟨?_, ?_⟩
  · rw [hp.2.2.1]
    decide
  · rw [hp.2.2.2.2 (by decide)]
    decide

/-! Claim C5. -/

/-- C5 counterexample: a snapshot with a counted positive total (100) whose
Cash category accumulates a negative amount; the returned percentages sum
to 150, not 100 — refuting the claim that a positive counted total forces
the values of the result map to sum to exactly 100. -/
def c5_negative_snapshot : PortfolioSnapshot :=
  { timestamp := "2025-06-02T08:00:00", portfolio_id := "p", portfolio_name := "P",
    currency := "USD", net_worth := { amount := 100, currency := "USD" },
    total_assets := { amount := 100, currency := "USD" },
    total_debts := { amount := 0, currency := "USD" },
    accounts :=
      [{ id := "a", name := "Broad Index", institution := none,
         value := { amount := 150, currency := "USD" }, category := "asset",
         sheet_name := "Investments", section_name := none, sub_type := some "stock",
         asset_class := none, account_type := none, geography := none },
       { id := "b", name := "Margin Cash", institution := none,
         value := { amount := -50, currency := "USD" }, category := "asset",
         sheet_name := "Investments", section_name := none, sub_type := some "cash",
         asset_class := none, account_type := none, geography := none }] }

/-- C5 counterexample theorem: positive counted total, yet the result values
sum to 150 ≠ 100. -/
theorem C5_counterexample :
    0 < allocation_total c5_negative_snapshot ∧
    ((calculate_asset_allocation c5_negative_snapshot).map (fun p => p.2)).sum = 150 ∧
    ((calculate_asset_allocation c5_negative_snapshot).map (fun p => p.2)).sum ≠ 100 := by
  refine ⟨by decide, by decide, ?_⟩
  have h : ((calculate_asset_allocation c5_negative_snapshot).map (fun p => p.2)).sum
      = 150 := by decide
  rw [h]
  decide

/-- C5 (amended): the classifier excludes every asset account without the
separator in its id that has at least one child holding present in the same
snapshot; and when the counted total is positive and every per-category
accumulated value is nonnegative, the values of the returned category map
sum to exactly 100 over exact arithmetic. -/
theorem C5_exclusion_and_sum (s : PortfolioSnapshot) :
    (∀ p ∈ s.accounts, p.category = "asset" → p.id.data.contains '_' = false →
      has_children s.accounts p.id = true → p ∉ counted_accounts s.accounts) ∧
    (0 < allocation_total s → (∀ k ∈ category_keys, 0 ≤ category_total s k) →
      ((calculate_asset_allocation s).map (fun p => p.2)).sum = 100) := by
  constructor
  · intro p _ hcat hid hch hmem
    have hpred := (List.mem_filter.mp hmem).2
    unfold counted_pred at hpred
    rw [hid, hch] at hpred
    simp at hpred
  · intro hpos hnn
    have ht : allocation_total s ≠ 0 := ne_of_gt hpos
    unfold calculate_asset_allocation
    rw [if_pos hpos, List.map_map]
    have hcomp : ((fun p => p.2) ∘ fun p : String × ℚ =>
        (p.1, p.2 / allocation_total s * 100))
        = fun p : String × ℚ => p.2 / allocation_total s * 100 := rfl
    rw [hcomp]
    have hvals : ∀ p ∈ category_keys.map (fun k => (k, category_total s k)), 0 ≤ p.2 := by
      intro p hp
      obtain ⟨k, hk, rfl⟩ := List.mem_map.mp hp
      exact hnn k hk
    rw [sum_filter_pos_div (allocation_total s) ht _ hvals, List.map_map]
    have hcomp2 : ((fun p => p.2) ∘ fun k => (k, category_total s k))
        = category_total s := rfl
    rw [hcomp2]
    have htot : (category_keys.map (category_total s)).sum = allocation_total s := rfl
    rw [htot, div_self ht, one_mul]

/-- The parent account of the C5 witness snapshot. -/
def c5_parent_account : AccountRecord :=
  { id := "par", name := "Brokerage", institution := none,
    value := { amount := 100, currency := "USD" }, category := "asset",
    sheet_name := "Investments", section_name := none, sub_type := none,
    asset_class := none, account_type := none, geography := none }

/-- C5 witness snapshot: a parent with two children; percentages 60/40. -/
def c5_parent_snapshot : PortfolioSnapshot :=
  { timestamp := "2025-06-02T08:00:00", portfolio_id := "p", portfolio_name := "P",
    currency := "USD", net_worth := { amount := 100, currency := "USD" },
    total_assets := { amount := 100, currency := "USD" },
    total_debts := { amount := 0, currency := "USD" },
    accounts :=
      [c5_parent_account,
       { id := "par_isin-1", name := "Index Fund Shares", institution := none,
         value := { amount := 60, currency := "USD" }, category := "asset",
         sheet_name := "Investments", section_name := none, sub_type := some "stock",
         asset_class := none, account_type := none, geography := none },
       { id := "par_isin-2", name := "Money Market", institution := none,
         value := { amount := 40, currency := "USD" }, category := "asset",
         sheet_name := "Investments", section_name := none, sub_type := some "cash",
         asset_class := none, account_type := none, geography := none }] }

/-- C5 witness: the theorem applied to a concrete snapshot with a parent and
two child holdings: the parent is excluded and the percentages sum to 100. -/
theorem C5_witness :
    c5_parent_account ∉ counted_accounts c5_parent_snapshot.accounts ∧
    ((calculate_asset_allocation c5_parent_snapshot).map (fun p => p.2)).sum = 100 :=
  ⟨(C5_exclusion_and_sum c5_parent_snapshot).1 c5_parent_account
      (by decide) (by decide) (by decide) (by decide),
   (C5_exclusion_and_sum c5_parent_snapshot).2 (by decide) (by decide)⟩

/-! Claim C6. -/

/-- C6: aggregation replaces the accounts list by exactly the records whose
id contains no separator and whose amount is nonzero, as a filter (hence in
the original relative order), and carries every other snapshot field over
unchanged.  (The embedding is a pure function, matching the source's
construction of a fresh dict without mutating the input.) -/
theorem C6_aggregate_filters (s : PortfolioSnapshot) :
    (aggregate_holdings_to_accounts s).accounts
      = s.accounts.filter
          (fun a => !(a.id.data.contains '_') && !(decide (a.value.amount = 0))) ∧
    (aggregate_holdings_to_accounts s).timestamp = s.timestamp ∧
    (aggregate_holdings_to_accounts s).portfolio_id = s.portfolio_id ∧
    (aggregate_holdings_to_accounts s).portfolio_name = s.portfolio_name ∧
    (aggregate_holdings_to_accounts s).currency = s.currency ∧
    (aggregate_holdings_to_accounts s).net_worth = s.net_worth ∧
    (aggregate_holdings_to_accounts s).total_assets = s.total_assets ∧
    (aggregate_holdings_to_accounts s).total_debts = s.total_debts := by
  refine ⟨?_, rfl, rfl, rfl, rfl, rfl, rfl, rfl⟩
  unfold aggregate_holdings_to_accounts aggregate_accounts_loop
  simpa using foldl_append_filter
    (fun a : AccountRecord => !(a.id.data.contains '_') && !(decide (a.value.amount = 0)))
    s.accounts []

/-! Claim C7. -/

/-- Atomicity of a write as the claim states it: every observable state of
the file is either the old content or the fully written new content. -/
def atomic_write (states : List (Option String)) (old final : Option String) : Prop :=
  ∀ st ∈ states, st = old ∨ st = final

/-- C7 counterexample: save_snapshot opens the destination with O_TRUNC and
writes in place, so between the open and the completed write a reader
observes an empty file — neither the old nor the new document.  The write
is therefore not atomic. -/
theorem C7_counterexample :
    ¬ atomic_write (save_states (some "old snapshot") "new snapshot")
        (some "old snapshot") (some "new snapshot") := by
  unfold atomic_write
  decide

/-- C7 (amended): save replaces the document for its calendar date as an
idempotent upsert — the final observable state is the new content
regardless of what was stored before — but the write is not
temp-then-rename: it truncates the destination in place, exposing an
intermediate empty file to concurrent readers. -/
theorem C7_save_upsert (old : Option String) (new : String) :
    (save_states old new).getLast? = some (some new) ∧
    some "" ∈ save_states old new := by
  constructor
  · rfl
  · simp [save_states]

/-! Claim C8. -/

/-- C8: load returns `ok none` exactly when no document is stored for the
date, and returns a StorageError (never null) when the stored content is
malformed; the error is surfaced to the caller. -/
theorem C8_load_none_iff_absent (parse : String → Option PortfolioSnapshot)
    (store : Date → Option String) (d : Date) :
    (load_snapshot parse store d = Except.ok none ↔ store d = none) ∧
    (∀ raw, store d = some raw → parse raw = none →
      load_snapshot parse store d
        = Except.error "Invalid JSON in snapshot file") := by
  constructor
  · unfold load_snapshot
    cases h : store d with
    | none => simp
    | some raw => cases hp : parse raw <;> simp [hp]
  · intro raw h hp
    simp only [load_snapshot, h, hp]

/-- C8 witness: with a store holding unparseable content for one date and
nothing for another, the theorem yields the error and the null result. -/
theorem C8_witness :
    load_snapshot (fun _ => none) (fun d => if d.year = 2025 then some "not json" else none)
        ⟨2025, 6, 1⟩ = Except.error "Invalid JSON in snapshot file" ∧
    load_snapshot (fun _ => none) (fun d => if d.year = 2025 then some "not json" else none)
        ⟨2024, 6, 1⟩ = Except.ok none :=
  ⟨(C8_load_none_iff_absent (fun _ => none)
        (fun d => if d.year = 2025 then some "not json" else none) ⟨2025, 6, 1⟩).2
      "not json" (by decide) rfl,
   (C8_load_none_iff_absent (fun _ => none)
        (fun d => if d.year = 2025 then some "not json" else none) ⟨2024, 6, 1⟩).1.mpr
      (by decide)⟩

/-! Claim C9. -/

/-- Concrete account for the C9 counterexample and witness. -/
def c9_account : AccountRecord :=
  { id := "x", name := "X", institution := none,
    value := { amount := 5, currency := "USD" }, category := "asset",
    sheet_name := "Investments", section_name := none, sub_type := none,
    asset_class := none, account_type := none, geography := none }

/-- Concrete snapshot for the C9 counterexample: one asset account worth 5. -/
def c9_snapshot : PortfolioSnapshot :=
  { timestamp := "2025-06-02T08:00:00", portfolio_id := "p", portfolio_name := "P",
    currency := "USD", net_worth := { amount := 5, currency := "USD" },
    total_assets := { amount := 5, currency := "USD" },
    total_debts := { amount := 0, currency := "USD" },
    accounts := [c9_account] }

/-- C9 counterexample: with previous = null the produced delta's `change`
field is not null — it is the full current value (a nonzero MoneyValue),
refuting the claim that every change field of every produced AccountDelta
is null.  (Only `change_percent` is null; `change` carries current_value.) -/
theorem C9_counterexample :
    ((calculate_deltas c9_snapshot none).asset_changes.map (fun d => d.change))
      = [{ amount := 5, currency := "USD" }] ∧
    ({ amount := 5, currency := "USD" } : MoneyValue)
      ≠ { amount := 0, currency := "USD" } := by decide

/-- C9 (amended): calling the engine with previous = null is total (no
error) and returns ReportData with previous null, net_worth_change and
net_worth_change_percent null, and every produced AccountDelta has
change_percent null, previous_value a zero MoneyValue in current's
currency, and change equal to its current_value. -/
theorem C9_no_previous (cur : PortfolioSnapshot) :
    (calculate_deltas cur none).previous = none ∧
    (calculate_deltas cur none).net_worth_change = none ∧
    (calculate_deltas cur none).net_worth_change_percent = none ∧
    ∀ d, (d ∈ (calculate_deltas cur none).asset_changes ∨
          d ∈ (calculate_deltas cur none).debt_changes) →
      d.change_percent = none ∧ d.change = d.current_value ∧
      d.previous_value = { amount := 0, currency := cur.currency } := by
  refine ⟨rfl, rfl, rfl, ?_⟩
  intro d hd
  have hmap : ∀ a : AccountRecord,
      d = mkDelta cur.currency [] a →
        d.change_percent = none ∧ d.change = d.current_value ∧
        d.previous_value = { amount := 0, currency := cur.currency } := by
    intro a ha
    subst ha
    exact ⟨rfl, rfl, rfl⟩
  rcases hd with hd | hd
  · have := (mem_sortDesc d _).mp hd
    have hmem := List.mem_filter.mp this
    obtain ⟨a, _, ha⟩ := List.mem_map.mp hmem.1
    exact hmap a ha.symm
  · have := (mem_sortDesc d _).mp hd
    have hmem := List.mem_filter.mp this
    obtain ⟨a, _, ha⟩ := List.mem_map.mp hmem.1
    exact hmap a ha.symm

/-- C9 witness: the amended theorem applied to the concrete snapshot and to
the concrete delta the engine produces for its only account. -/
theorem C9_witness :
    (calculate_deltas c9_snapshot none).previous = none ∧
    (calculate_deltas c9_snapshot none).net_worth_change = none ∧
    (mkDelta "USD" [] c9_account).change_percent = none ∧
    (mkDelta "USD" [] c9_account).change = (mkDelta "USD" [] c9_account).current_value :=
  ⟨(C9_no_previous c9_snapshot).1,
   (C9_no_previous c9_snapshot).2.1,
   ((C9_no_previous c9_snapshot).2.2.2 (mkDelta "USD" [] c9_account)
       (Or.inl (by decide))).1,
   ((C9_no_previous c9_snapshot).2.2.2 (mkDelta "USD" [] c9_account)
       (Or.inl (by decide))).2.1⟩

/-! Claim C10. -/

/-- C10: whenever the counted per-category total is not strictly positive
(including negative totals from negative amounts, which are accepted), the
classifier returns the empty map; and every value in a non-empty result map
is strictly positive, zero or negative categories being omitted. -/
theorem C10_allocation_positivity (s : PortfolioSnapshot) :
    (allocation_total s ≤ 0 → calculate_asset_allocation s = []) ∧
    (∀ p ∈ calculate_asset_allocation s, 0 < p.2) := by
  constructor
  · intro h
    unfold calculate_asset_allocation
    rw [if_neg (not_lt.mpr h)]
  · intro p hp
    unfold calculate_asset_allocation at hp
    by_cases hpos : 0 < allocation_total s
    · rw [if_pos hpos] at hp
      obtain ⟨q, hq, rfl⟩ := List.mem_map.mp hp
      have hq2 : 0 < q.2 := by simpa using (List.mem_filter.mp hq).2
      exact mul_pos (div_pos hq2 hpos) (by norm_num)
    · rw [if_neg hpos] at hp
      cases hp

/-- Snapshot with a negative counted total for the C10 witness. -/
def c10_negative_total_snapshot : PortfolioSnapshot :=
  { timestamp := "2025-06-02T08:00:00", portfolio_id := "p", portfolio_name := "P",
    currency := "USD", net_worth := { amount := -5, currency := "USD" },
    total_assets := { amount := -5, currency := "USD" },
    total_debts := { amount := 0, currency := "USD" },
    accounts :=
      [{ id := "x", name := "Underwater Position", institution := none,
         value := { amount := -5, currency := "USD" }, category := "asset",
         sheet_name := "Investments", section_name := none, sub_type := some "stock",
         asset_class := none, account_type := none, geography := none }] }

/-- Snapshot with a positive 70/30 allocation for the C10 witness. -/
def c10_positive_snapshot : PortfolioSnapshot :=
  { timestamp := "2025-06-02T08:00:00", portfolio_id := "p", portfolio_name := "P",
    currency := "USD", net_worth := { amount := 100, currency := "USD" },
    total_assets := { amount := 100, currency := "USD" },
    total_debts := { amount := 0, currency := "USD" },
    accounts :=
      [{ id := "s", name := "Index Shares", institution := none,
         value := { amount := 70, currency := "USD" }, category := "asset",
         sheet_name := "Investments", section_name := none, sub_type := some "stock",
         asset_class := none, account_type := none, geography := none },
       { id := "c", name := "Settlement Fund", institution := none,
         value := { amount := 30, currency := "USD" }, category := "asset",
         sheet_name := "Investments", section_name := none, sub_type := some "cash",
         asset_class := none, account_type := none, geography := none }] }

/-- C10 witness: the theorem applied to a snapshot whose counted total is
−5 (empty map) and, for positivity, to a concrete entry of the 70/30
snapshot's allocation. -/
theorem C10_witness :
    calculate_asset_allocation c10_negative_total_snapshot = [] ∧
    (0 : ℚ) < (("Stocks", (70 : ℚ)) : String × ℚ).2 :=
  ⟨(C10_allocation_positivity c10_negative_total_snapshot).1 (by decide),
   (C10_allocation_positivity c10_positive_snapshot).2 ("Stocks", (70 : ℚ)) (by decide)⟩

end Kubera
